import Mathlib

/- Verification of the client-side home/session coordination model of the
smart-home dashboard repository.  The definitions below are shallow
embeddings of the TypeScript sources: the HomeProvider in
src/unnamed/part_004 (HomeContext), the AuthProvider in src/unnamed/part_003
(AuthContext), the home-aware data fetching hooks in
src/smart-home-fe/src/hooks/useHomeData.ts, the api client in
src/unnamed/part_002, and the navigation role filter in
src/smart-home-fe/src/config/routes.ts.  Asynchronous and React behavior
(effects, event dispatch, interleaved awaits) is modelled by explicit state
passing and explicit event traces; boundary (HTTP/mock) responses appear as
parameters of the operations that await them. -/

/-- Per-home role of the requesting user (types/index.ts, Home.role). -/
inductive Role where
  | owner
  | admin
  | member
  | guest
  deriving DecidableEq, Repr

/-- Home category tag (types/index.ts, Home.type). -/
inductive HomeType where
  | house
  | apartment
  | vacation
  | commercial
  | other
  deriving DecidableEq, Repr

/-- A home record (types/index.ts, Home). -/
structure Home where
  id : Nat
  name : String
  description : Option String := none
  address : Option String := none
  owner_id : Nat
  role : Role
  type : HomeType
  deriving DecidableEq, Repr

/-- A room record (types/index.ts, Room). -/
structure Room where
  id : Nat
  name : String
  description : Option String := none
  home_id : Nat
  deriving DecidableEq, Repr

/-- A user record (types/index.ts, User). -/
structure User where
  id : Nat
  email : String
  username : String
  full_name : Option String := none
  deriving DecidableEq, Repr

/-- Decimal value of a digit character. -/
def digitVal (c : Char) : Nat := c.toNat - 48

/-- Model of the JavaScript parseInt(saved, 10) call used by HomeProvider:
it parses the leading run of decimal digits of the string and yields none
when there is none (the NaN case, which no numeric home id ever equals). -/
def jsParseInt (s : String) : Option Nat :=
  match s.toList.takeWhile Char.isDigit with
  | [] => none
  | ds => some (ds.foldl (fun acc c => acc * 10 + digitVal c) 0)

/-- State owned by the HomeProvider (src/unnamed/part_004): the home set,
the current home id, the loading flag, and the localStorage value stored
under the key smart_home_current_home_id (none when the key is unset). -/
structure RegistryState where
  homes : List Home
  currentHomeId : Option Nat
  isLoading : Bool
  storage : Option String
  deriving DecidableEq, Repr

/-- Initial HomeProvider state (part_004 lines 26-28) over empty storage:
useState yields an empty home set, a null current home and loading true. -/
def initRegistry : RegistryState :=
  { homes := [], currentHomeId := none, isLoading := true, storage := none }

/-- The selection-repair effect of HomeProvider (part_004 lines 36-55).
It runs after each render whose [homes, currentHomeId] dependencies
changed; its body fires only when the home set is non-empty and no home is
current.  A saved id that parses and is a member becomes current with no
storage write; otherwise the first home of the set becomes current and is
written to storage.  The saved string is read through JavaScript
truthiness, so an empty string counts as no saved id. -/
def repairEffect (s : RegistryState) : RegistryState :=
  match s.homes with
  | [] => s
  | h0 :: _ =>
    if s.currentHomeId = none then
      match s.storage with
      | some saved =>
        if saved ≠ "" then
          let homeId := jsParseInt saved
          if s.homes.any (fun h => some h.id = homeId) then
            { s with currentHomeId := homeId }
          else
            { s with currentHomeId := some h0.id, storage := some (toString h0.id) }
        else
          { s with currentHomeId := some h0.id, storage := some (toString h0.id) }
      | none => { s with currentHomeId := some h0.id, storage := some (toString h0.id) }
    else s

/-- loadHomes of HomeProvider (part_004 lines 57-101).  The source awaits a
boundary response inside try/catch: on success the home set becomes exactly
the response, on failure (catch) it becomes empty, and the loading flag
clears either way (finally).  The awaited outcome is the result argument
(none is the failure case); the shipped placeholder always supplies
some mockHomes. -/
def loadHomes (result : Option (List Home)) (s : RegistryState) : RegistryState :=
  match result with
  | some data => { s with homes := data, isLoading := false }
  | none => { s with homes := [], isLoading := false }

/-- The mock home list hard-coded in loadHomes (part_004 lines 64-92). -/
def mockHomes : List Home :=
  [ { id := 1, name := "Main House", description := some ("Primary residence"),
      address := some ("123 Main St, City"), owner_id := 1,
      role := Role.owner, type := HomeType.house },
    { id := 2, name := "Beach House", description := some ("Vacation home by the sea"),
      address := some ("456 Ocean Ave, Beach City"), owner_id := 1,
      role := Role.member, type := HomeType.vacation },
    { id := 3, name := "Office", description := some ("Work office"),
      address := some ("789 Business Blvd, Downtown"), owner_id := 2,
      role := Role.admin, type := HomeType.commercial } ]

/-- switchHome of HomeProvider (part_004 lines 103-114).  When the id is a
member of the home set it becomes current, is written to storage, and one
homeChanged event carrying it is dispatched (the second component lists the
events this call emits, in order); otherwise the call only logs and the
state is unchanged with no event. -/
def switchHome (homeId : Nat) (s : RegistryState) : RegistryState × List Nat :=
  if s.homes.any (fun h => h.id = homeId) then
    ({ s with currentHomeId := some homeId, storage := some (toString homeId) },
     [homeId])
  else (s, [])

/-- refreshHomes of HomeProvider (part_004 lines 116-118): it awaits
loadHomes again. -/
def refreshHomes (result : Option (List Home)) (s : RegistryState) : RegistryState :=
  loadHomes result s

/-- One registry operation, carrying the boundary outcome it awaits. -/
inductive RegistryOp where
  | load (result : Option (List Home))
  | refresh (result : Option (List Home))
  | switch (homeId : Nat)
  deriving DecidableEq, Repr

/-- Run one registry operation followed by the selection-repair effect,
which React schedules after any render in which homes or currentHomeId
changed (running it when nothing changed is a no-op, so composing it
unconditionally is faithful). -/
def applyRegistryOp (s : RegistryState) (op : RegistryOp) : RegistryState :=
  repairEffect (match op with
    | RegistryOp.load r => loadHomes r s
    | RegistryOp.refresh r => refreshHomes r s
    | RegistryOp.switch homeId => (switchHome homeId s).1)

/-- Run a sequence of registry operations from a starting state. -/
def runRegistry (s : RegistryState) (ops : List RegistryOp) : RegistryState :=
  ops.foldl applyRegistryOp s

/-- State exposed by a home-aware data fetching hook
(useHomeData.ts): the held data, the loading flag, and the last error. -/
structure FetcherState (T : Type) where
  data : T
  isLoading : Bool
  error : Option String
  deriving DecidableEq, Repr

/-- One run-to-completion invocation of fetchData of the generic useHomeData
hook (useHomeData.ts lines 201-219).  With a null current home the hook
resets data to the default value and clears loading without calling the
fetch function.  Otherwise it calls fetchFn with the current home id; on
success the result replaces the data and the error clears, on a rejected
promise (catch) the error is recorded and the data is left as it was, and
loading clears either way (finally).  The second component records whether
fetchFn was invoked. -/
def fetchData {T : Type} (fetchFn : Nat → Except String T) (defaultValue : T)
    (currentHomeId : Option Nat) (s : FetcherState T) : FetcherState T × Bool :=
  match currentHomeId with
  | none => ({ s with data := defaultValue, isLoading := false }, false)
  | some homeId =>
    match fetchFn homeId with
    | Except.ok result =>
      ({ data := result, isLoading := false, error := none }, true)
    | Except.error e =>
      ({ s with error := some e, isLoading := false }, true)

/-- One run-to-completion invocation of fetchRooms of the useHomeRooms hook
(useHomeData.ts lines 22-42).  The outcome argument is the awaited result
of api.getRooms() (src/unnamed/part_002 lines 187-195), i.e. of GET /rooms:
the request takes no home parameter, so the outcome is the same whichever
home is current.  A null current home yields the empty list without a
request; otherwise the response replaces the data (or the error is recorded
keeping the data) and loading clears. -/
def fetchRooms (outcome : Except String (List Room))
    (currentHomeId : Option Nat) (s : FetcherState (List Room)) :
    FetcherState (List Room) × Bool :=
  match currentHomeId with
  | none => ({ s with data := [], isLoading := false }, false)
  | some _ =>
    match outcome with
    | Except.ok rooms =>
      ({ data := rooms, isLoading := false, error := none }, true)
    | Except.error e =>
      ({ s with error := some e, isLoading := false }, true)

/-- Atomic events of one home-scoped fetcher under the event-loop
interleaving model of the spec: a fetch invocation reaching its await
(start), a change of the current home id (switch), and the arrival of the
response of the i-th initiated fetch (complete). -/
inductive RaceEvent where
  | start
  | switch (homeId : Nat)
  | complete (i : Nat)
  deriving DecidableEq, Repr

/-- Interleaving state of one fetcher: the current home id, the displayed
data, the loading flag, and the list of home ids the in-flight fetches were
issued for, in initiation order (each fetchData closure captures
currentHomeId at invocation time). -/
structure RaceState (T : Type) where
  currentHomeId : Option Nat
  data : T
  isLoading : Bool
  inflight : List Nat
  deriving DecidableEq, Repr

/-- One interleaving step of the fetcher of useHomeData.ts lines 201-219.
fetchFn resolves a request issued for a home id.  On start with a non-null
home the request for the captured id is initiated; on complete i the
response of the i-th initiated request is applied by setData
unconditionally - the source compares nothing against the now-current home
id before applying it. -/
def raceStep {T : Type} (fetchFn : Nat → T) (defaultValue : T)
    (s : RaceState T) (e : RaceEvent) : RaceState T :=
  match e with
  | RaceEvent.start =>
    match s.currentHomeId with
    | none => { s with data := defaultValue, isLoading := false }
    | some homeId => { s with isLoading := true, inflight := s.inflight ++ [homeId] }
  | RaceEvent.switch homeId => { s with currentHomeId := some homeId }
  | RaceEvent.complete i =>
    match s.inflight.get? i with
    | some tag => { s with data := fetchFn tag, isLoading := false }
    | none => s

/-- Run an interleaving of fetcher events. -/
def runRace {T : Type} (fetchFn : Nat → T) (defaultValue : T)
    (s : RaceState T) (es : List RaceEvent) : RaceState T :=
  es.foldl (raceStep fetchFn defaultValue) s

/-- Fetch invocations observed by one mounted useHomeData (or useHomeRooms)
instance when switchHome homeId runs, listing the home id each invocation
closes over, in order.  switchHome dispatches its homeChanged event
synchronously, so the listener registered by useHomeData.ts lines 226-233
runs fetchData closed over the pre-switch currentHomeId; afterwards the
effect of lines 221-223 re-runs fetchData with the new id, but only when
the id actually changed (a setState to the same value re-renders nothing,
so the fetchData dependency keeps its identity). -/
def fetchCallsOnSwitch (s : RegistryState) (homeId : Nat) : List (Option Nat) :=
  let stepped := switchHome homeId s
  stepped.2.map (fun _ => s.currentHomeId) ++
    (if stepped.1.currentHomeId ≠ s.currentHomeId then [stepped.1.currentHomeId] else [])

/-- A value held under the localStorage user key.  AuthProvider only ever
writes JSON.stringify of a user record, which always reparses (valid);
corrupt models an unparseable blob found in storage, carrying its raw
text so that JavaScript truthiness of the string is still observable. -/
inductive StoredUser where
  | valid (u : User)
  | corrupt (raw : String)
  deriving DecidableEq, Repr

/-- Model of JSON.parse on a stored user blob: a written record reparses to
itself, a corrupt blob throws (none). -/
def parseStored (su : StoredUser) : Option User :=
  match su with
  | StoredUser.valid u => some u
  | StoredUser.corrupt _ => none

/-- JavaScript truthiness of the stored user string: the empty string is
falsy, every other string (every JSON.stringify output) is truthy. -/
def storedTruthy (su : StoredUser) : Bool :=
  match su with
  | StoredUser.valid _ => true
  | StoredUser.corrupt raw => raw ≠ ""

/-- State owned by the AuthProvider (src/unnamed/part_003) together with the
two localStorage keys it owns: the in-memory user, the loading flag, the
stored auth_token value and the stored user blob (none when unset). -/
structure SessionState where
  memUser : Option User
  isLoading : Bool
  storToken : Option String
  storUser : Option StoredUser
  deriving DecidableEq, Repr

/-- Initial AuthProvider state over empty storage (part_003 lines 42-43). -/
def initSession : SessionState :=
  { memUser := none, isLoading := true, storToken := none, storUser := none }

/-- The startup-restoration effect of AuthProvider (part_003 lines 45-61).
Both keys must be present and truthy (an empty-string token reads as
absent); a parseable cached user is restored to memory, an unparseable one
purges both keys.  Loading clears in every branch. -/
def restoreSession (s : SessionState) : SessionState :=
  match s.storToken, s.storUser with
  | some t, some su =>
    if t ≠ "" ∧ storedTruthy su then
      match parseStored su with
      | some u => { s with memUser := some u, isLoading := false }
      | none =>
        { s with storToken := none, storUser := none, isLoading := false }
    else { s with isLoading := false }
  | _, _ => { s with isLoading := false }

/-- Credentials passed to login (types/index.ts, LoginCredentials). -/
structure LoginCredentials where
  email : String
  password : String
  deriving DecidableEq, Repr

/-- The fallback user AuthProvider synthesizes when /auth/me fails
(part_003 lines 78-83): username is the local part of the email before the
at sign, or the literal user when that part is empty (JavaScript
split-then-or). -/
def mkMockUser (email : String) : User :=
  let localPart :=
    match email.splitOn ("@") with
    | [] => ""
    | p :: _ => p
  { id := 1, email := email,
    username := if localPart = "" then "user" else localPart,
    full_name := some ("Demo User") }

/-- One run-to-completion call of login of AuthProvider (part_003 lines
63-91).  exchange is the awaited outcome of api.login (none models a
rejected credential exchange: the outer catch rethrows before any write).
On success the token is stored first; profile is the awaited outcome of
api.getCurrentUser - a fetched user (some) or the synthesized fallback
(none) is then stored and set in memory. -/
def loginStep (exchange : Option String) (profile : Option User)
    (creds : LoginCredentials) (s : SessionState) : SessionState :=
  match exchange with
  | none => s
  | some token =>
    let s1 := { s with storToken := some token }
    match profile with
    | some u => { s1 with storUser := some (StoredUser.valid u), memUser := some u }
    | none =>
      let mockUser := mkMockUser creds.email
      { s1 with storUser := some (StoredUser.valid mockUser),
                memUser := some mockUser }

/-- One run-to-completion call of register of AuthProvider (part_003 lines
93-106): when account creation succeeds it performs login with the same
email and password; when it fails the catch rethrows with no state
change.  A failed inner login also leaves the state unchanged. -/
def registerStep (created : Bool) (exchange : Option String)
    (profile : Option User) (data : LoginCredentials) (s : SessionState) :
    SessionState :=
  if created then loginStep exchange profile data s else s

/-- logout of AuthProvider (part_003 lines 108-112): removes both storage
keys and clears the in-memory user, unconditionally. -/
def logoutStep (s : SessionState) : SessionState :=
  { s with storToken := none, storUser := none, memUser := none }

/-- One session operation, carrying the boundary outcomes it awaits.
reload models a process restart: the in-memory state is reinitialized and
the startup-restoration effect runs over the surviving storage. -/
inductive SessionOp where
  | login (exchange : Option String) (profile : Option User)
      (creds : LoginCredentials)
  | register (created : Bool) (exchange : Option String)
      (profile : Option User) (data : LoginCredentials)
  | logout
  | reload
  deriving DecidableEq, Repr

/-- Apply one session operation. -/
def applySessionOp (s : SessionState) (op : SessionOp) : SessionState :=
  match op with
  | SessionOp.login exchange profile creds => loginStep exchange profile creds s
  | SessionOp.register created exchange profile data =>
    registerStep created exchange profile data s
  | SessionOp.logout => logoutStep s
  | SessionOp.reload => restoreSession { s with memUser := none, isLoading := true }

/-- Run a sequence of session operations. -/
def runSession (s : SessionState) (ops : List SessionOp) : SessionState :=
  ops.foldl applySessionOp s

/-- The Session Store invariant of the claim: the stored token is non-null
iff the stored user is non-null, and the stored token is non-null iff the
in-memory user is non-null (the in-memory session holds no token of its
own; the token lives only in storage). -/
def sessionInvariant (s : SessionState) : Prop :=
  (s.storToken = none ↔ s.storUser = none) ∧
    (s.storToken = none ↔ s.memUser = none)

instance (s : SessionState) : Decidable (sessionInvariant s) := by
  unfold sessionInvariant
  infer_instance

/-- A navigation item (types/index.ts, NavItem); the icon component is
identified by its name string as in the source ICON_MAP keys. -/
structure NavItem where
  text : String
  path : String
  icon : String
  requiresRole : Option (List Role) := none
  deriving DecidableEq, Repr

/-- The navigation menu (routes.ts, NAV_ITEMS, lines 50-82). -/
def NAV_ITEMS : List NavItem :=
  [ { text := "Dashboard", path := "/dashboard", icon := "Dashboard" },
    { text := "Homes", path := "/homes", icon := "Home" },
    { text := "Rooms", path := "/rooms", icon := "MeetingRoom" },
    { text := "Devices", path := "/devices", icon := "Devices" },
    { text := "Automation", path := "/automation", icon := "AutoMode",
      requiresRole := some [Role.owner, Role.admin, Role.member] },
    { text := "Alerts", path := "/alerts", icon := "Notifications" } ]

/-- getFilteredNavItems (routes.ts lines 95-102): with no role every item
is returned; with a role, the items whose requiresRole is absent or
contains the role. -/
def getFilteredNavItems (userRole : Option Role) : List NavItem :=
  match userRole with
  | none => NAV_ITEMS
  | some r =>
    NAV_ITEMS.filter (fun item =>
      match item.requiresRole with
      | none => true
      | some roles => roles.contains r)

/-- Sample home with id 1 for concrete scenarios. -/
def homeOne : Home :=
  { id := 1, name := "Home One", owner_id := 1,
    role := Role.owner, type := HomeType.house }

/-- Sample home with id 2 for concrete scenarios. -/
def homeTwo : Home :=
  { id := 2, name := "Home Two", owner_id := 1,
    role := Role.member, type := HomeType.vacation }

/-- Sample home with id 3 for concrete scenarios. -/
def homeThree : Home :=
  { id := 3, name := "Home Three", owner_id := 2,
    role := Role.admin, type := HomeType.commercial }

/-- Registry state with homes 1 and 2, home 1 current and persisted. -/
def regCur1 : RegistryState :=
  { homes := [homeOne, homeTwo], currentHomeId := some 1,
    isLoading := false, storage := some ("1") }

/-- Claim C7: for every fetcher invocation where the current home identifier
is null, the fetcher yields its default value and clears its loading flag
without initiating any request through the supplied fetch function, and the
rooms fetcher likewise yields its empty default without a request. -/
theorem fetchData_nullHome {T : Type} (fetchFn : Nat → Except String T)
    (defaultValue : T) (s : FetcherState T)
    (outcome : Except String (List Room)) (sr : FetcherState (List Room)) :
    fetchData fetchFn defaultValue none s =
      ({ s with data := defaultValue, isLoading := false }, false) ∧
    fetchRooms outcome none sr =
      ({ sr with data := [], isLoading := false }, false) := by
  exact ⟨rfl, rfl⟩

/-- Claim C7 witness at concrete inputs. -/
theorem fetchData_nullHome_witness :
    fetchData (fun homeId => Except.ok [homeId]) ([] : List Nat) none
        { data := [5], isLoading := true, error := none } =
      ({ data := [], isLoading := false, error := none }, false) :=
  (fetchData_nullHome (fun homeId => Except.ok [homeId]) []
    { data := [5], isLoading := true, error := none }
    (Except.ok []) { data := [], isLoading := true, error := none }).1

/-- Claim C8: fetch-failure containment.  When the current home is h and
the fetch for h rejects with e, the invocation returns a state (the catch
branch absorbs the failure) in which the previously held data is retained
unchanged, the error is recorded, and loading clears; the rooms fetcher
behaves the same on a rejected getRooms call. -/
theorem fetchData_failure {T : Type} (fetchFn : Nat → Except String T)
    (defaultValue : T) (s : FetcherState T) (h : Nat) (e : String)
    (hf : fetchFn h = Except.error e)
    (sr : FetcherState (List Room)) (hr : Nat) :
    fetchData fetchFn defaultValue (some h) s =
      ({ data := s.data, isLoading := false, error := some e }, true) ∧
    fetchRooms (Except.error e) (some hr) sr =
      ({ data := sr.data, isLoading := false, error := some e }, true) := by
  constructor
  · simp [fetchData, hf]
  · rfl

/-- Claim C8 witness: a failing rooms fetch for home 1 keeps the previous
room list, records the error, and clears loading. -/
theorem fetchData_failure_witness :
    fetchData (fun _ => (Except.error ("network down") : Except String (List Room)))
        [] (some 1)
        { data := [ { id := 7, name := "Old Room", home_id := 1 } ],
          isLoading := true, error := none } =
      ({ data := [ { id := 7, name := "Old Room", home_id := 1 } ],
         isLoading := false, error := some ("network down") }, true) :=
  (fetchData_failure (fun _ => Except.error ("network down")) [] _ 1
    ("network down") rfl { data := [], isLoading := true, error := none } 1).1

/-- Claim C5: switchHome contract.  With an id present in the home set the
current id becomes id, id is written to storage, and exactly one
homeChanged notification carrying id is emitted; with an id absent from
the set the state is unchanged and no notification is emitted. -/
theorem switchHome_contract (s : RegistryState) (homeId : Nat) :
    (s.homes.any (fun h => h.id = homeId) = true →
      switchHome homeId s =
        ({ s with currentHomeId := some homeId,
                  storage := some (toString homeId) }, [homeId])) ∧
    (s.homes.any (fun h => h.id = homeId) = false →
      switchHome homeId s = (s, [])) := by
  constructor <;> intro hmem <;> simp [switchHome, hmem]

/-- Claim C5 witness: switching to the member home 2 updates and notifies
once with payload 2; switching to the absent home 99 changes nothing and
emits nothing. -/
theorem switchHome_contract_witness :
    switchHome 2 regCur1 =
      ({ regCur1 with currentHomeId := some 2, storage := some ("2") }, [2]) ∧
    switchHome 99 regCur1 = (regCur1, []) :=
  ⟨by
    have h := (switchHome_contract regCur1 2).1 (by decide)
    simpa using h,
   (switchHome_contract regCur1 99).2 (by decide)⟩

/-- Claim C4: selection repair after a load with no current selection.
When storage holds a saved id that parses to a member n of the non-empty
loaded set, n becomes current and storage is not rewritten; when the saved
id is not a member, or no id is saved, the first home of the set becomes
current and that choice is written to storage. -/
theorem repairEffect_spec (h0 : Home) (rest : List Home) (ld : Bool)
    (st : Option String) :
    (∀ saved n, st = some saved → jsParseInt saved = some n →
        (h0 :: rest).any (fun h => h.id = n) = true →
        repairEffect { homes := h0 :: rest, currentHomeId := none,
                       isLoading := ld, storage := st } =
          { homes := h0 :: rest, currentHomeId := some n,
            isLoading := ld, storage := st }) ∧
    (∀ saved, st = some saved → saved ≠ "" →
        (h0 :: rest).any (fun h => some h.id = jsParseInt saved) = false →
        repairEffect { homes := h0 :: rest, currentHomeId := none,
                       isLoading := ld, storage := st } =
          { homes := h0 :: rest, currentHomeId := some h0.id,
            isLoading := ld, storage := some (toString h0.id) }) ∧
    (st = none →
        repairEffect { homes := h0 :: rest, currentHomeId := none,
                       isLoading := ld, storage := st } =
          { homes := h0 :: rest, currentHomeId := some h0.id,
            isLoading := ld, storage := some (toString h0.id) }) := by
  refine ⟨?_, ?_, ?_⟩
  · intro saved n hst hparse hmem
    subst hst
    have hne : saved ≠ "" := by
      intro hempty
      subst hempty
      simp [jsParseInt] at hparse
    simp at hmem
    simp [repairEffect, hne, hparse, hmem]
  · intro saved hst hne hmem
    subst hst
    simp at hmem
    simp [repairEffect, hne, hmem]
    intro x hx hxeq
    exact absurd hxeq (hmem.2 x hx)
  · intro hst
    subst hst
    simp [repairEffect]

/-- Claim C4 witness: the concrete scenario of the spec - homes with ids 1
and 2 and stale persisted selection 9 yield current home 1 and storage
rewritten to 1. -/
theorem repairEffect_spec_witness :
    repairEffect { homes := [homeOne, homeTwo], currentHomeId := none,
                   isLoading := false, storage := some ("9") } =
      { homes := [homeOne, homeTwo], currentHomeId := some 1,
        isLoading := false, storage := some ("1") } := by
  have h := (repairEffect_spec homeOne [homeTwo] false (some ("9"))).2.1
    ("9") rfl (by decide) (by decide)
  simpa using h

/-- Claim C10: getFilteredNavItems returns, for a defined role r, exactly
the navigation items whose requiresRole is absent or contains r; the
guest role receives every item except Automation in the original order;
an undefined role receives the whole list unchanged, including the
role-restricted Automation entry. -/
theorem getFilteredNavItems_spec :
    (∀ (r : Role) (item : NavItem),
        item ∈ getFilteredNavItems (some r) ↔
          item ∈ NAV_ITEMS ∧
            (item.requiresRole = none ∨
              ∃ roles, item.requiresRole = some roles ∧ r ∈ roles)) ∧
    getFilteredNavItems none = NAV_ITEMS ∧
    getFilteredNavItems (some Role.guest) =
      [ { text := "Dashboard", path := "/dashboard", icon := "Dashboard" },
        { text := "Homes", path := "/homes", icon := "Home" },
        { text := "Rooms", path := "/rooms", icon := "MeetingRoom" },
        { text := "Devices", path := "/devices", icon := "Devices" },
        { text := "Alerts", path := "/alerts", icon := "Notifications" } ] ∧
    (∃ item ∈ NAV_ITEMS, item.text = "Automation") := by
  refine ⟨?_, rfl, by decide, by decide⟩
  intro r item
  simp only [getFilteredNavItems, List.mem_filter]
  constructor
  · rintro ⟨hitem, hp⟩
    refine ⟨hitem, ?_⟩
    cases hreq : item.requiresRole with
    | none => exact Or.inl rfl
    | some roles =>
      right
      refine ⟨roles, rfl, ?_⟩
      rw [hreq] at hp
      simpa using hp
  · rintro ⟨hitem, hcond⟩
    refine ⟨hitem, ?_⟩
    cases hcond with
    | inl hnone => simp [hnone]
    | inr hsome =>
      obtain ⟨roles, hreq, hmem⟩ := hsome
      simp [hreq, hmem]

/-- Claim C10 witness: the guest role sees five items and not Automation. -/
theorem getFilteredNavItems_spec_witness :
    getFilteredNavItems none = NAV_ITEMS :=
  getFilteredNavItems_spec.2.1

/-- Resolved response of the rooms request issued for a home: one room
record belonging to that home (an arbitrary concrete resolver used to
exhibit the race of claim C1). -/
def roomFor (homeId : Nat) : List Room :=
  [ { id := homeId * 10, name := "Room", home_id := homeId } ]

/-- The racing interleaving: a fetch is initiated while home 1 is current,
the user switches to home 2, a second fetch is initiated for home 2, the
second fetch completes first, and the first (stale) fetch completes last. -/
def c1Trace : List RaceEvent :=
  [RaceEvent.start, RaceEvent.switch 2, RaceEvent.start,
   RaceEvent.complete 1, RaceEvent.complete 0]

/-- Fetcher interleaving state with home 1 current and nothing displayed. -/
def c1Start : RaceState (List Room) :=
  { currentHomeId := some 1, data := [], isLoading := false, inflight := [] }

/-- Claim C1 evaluated at the failing interleaving: after the stale fetch
issued for home 1 completes last, the code leaves home 2 current but
displays the data fetched for home 1 - the completed fetch whose issue-time
home differs from the now-current home is applied, not discarded. -/
theorem staleResponse_applied :
    (runRace roomFor [] c1Start c1Trace).currentHomeId = some 2 ∧
    (runRace roomFor [] c1Start c1Trace).data = roomFor 1 ∧
    (∀ room ∈ (runRace roomFor [] c1Start c1Trace).data, room.home_id ≠ 2) := by
  decide

/-- Claim C2 counterexample: with homes 1 and 2 loaded, home 1 current and
a rooms fetcher mounted, switchHome 2 triggers two fetch invocations (the
synchronous homeChanged listener closing over the pre-switch id 1, then
the identifier-change effect with id 2), not exactly one. -/
theorem switch_triggers_two_fetches :
    fetchCallsOnSwitch regCur1 2 = [some 1, some 2] ∧
    (fetchCallsOnSwitch regCur1 2).length ≠ 1 := by
  decide

/-- Claim C2 amended: after switchHome with a member id, a mounted fetcher
is triggered at least once; it is triggered exactly once when the id is
already current (the notification only - a setState to the same value does
not re-render) and exactly twice otherwise, the first invocation closing
over the pre-switch identifier and the second carrying the new one. -/
theorem fetchCallsOnSwitch_spec (s : RegistryState) (homeId : Nat)
    (hmem : s.homes.any (fun h => h.id = homeId) = true) :
    1 ≤ (fetchCallsOnSwitch s homeId).length ∧
    (fetchCallsOnSwitch s homeId).length =
      (if s.currentHomeId = some homeId then 1 else 2) ∧
    (s.currentHomeId ≠ some homeId →
      fetchCallsOnSwitch s homeId = [s.currentHomeId, some homeId]) := by
  unfold fetchCallsOnSwitch switchHome
  by_cases hc : s.currentHomeId = some homeId
  · simp [hmem, hc]
  · have hc2 : ¬ some homeId = s.currentHomeId := fun h => hc h.symm
    simp [hmem, hc, hc2]

/-- Claim C2 amended witness: the two invocations at the concrete switch. -/
theorem fetchCallsOnSwitch_spec_witness :
    fetchCallsOnSwitch regCur1 2 = [some 1, some 2] ∧
    1 ≤ (fetchCallsOnSwitch regCur1 2).length :=
  ⟨by
    have h := (fetchCallsOnSwitch_spec regCur1 2 (by decide)).2.2 (by decide)
    simpa using h,
   (fetchCallsOnSwitch_spec regCur1 2 (by decide)).1⟩

/-- Registry trace for claim C3: a load brings homes 1 and 2 (repair makes
home 1 current), then a refresh returns a set without home 1. -/
def c3TraceA : List RegistryOp :=
  [RegistryOp.load (some [homeOne, homeTwo]),
   RegistryOp.refresh (some [homeThree])]

/-- Registry trace for claim C3: the same load followed by a refresh whose
fresh set is empty. -/
def c3TraceB : List RegistryOp :=
  [RegistryOp.load (some [homeOne, homeTwo]),
   RegistryOp.refresh (some [])]

/-- Claim C3 evaluated at the failing traces: after a refresh that drops
the current home the set is non-empty yet the current id 1 is not a
member (the repair effect is guarded by currentHomeId being null, so it
never re-runs); and after a refresh to the empty set the current id stays
1 instead of resetting to null (no code path ever nulls it). -/
theorem registry_invariant_violated :
    ((runRegistry initRegistry c3TraceA).homes = [homeThree] ∧
      (runRegistry initRegistry c3TraceA).currentHomeId = some 1 ∧
      (runRegistry initRegistry c3TraceA).homes.any (fun h => h.id = 1) = false) ∧
    ((runRegistry initRegistry c3TraceB).homes = [] ∧
      (runRegistry initRegistry c3TraceB).currentHomeId = some 1) := by
  decide

/-- Server response of GET /rooms used for claim C6: the rooms endpoint of
the boundary returns records of home 1 (the request carries no home
parameter at all). -/
def serverRooms : List Room :=
  [ { id := 1, name := "Living Room", description := some ("Main living area"),
      home_id := 1 } ]

/-- Rooms fetcher state before a fetch. -/
def emptyRoomsFetcher : FetcherState (List Room) :=
  { data := [], isLoading := true, error := none }

/-- Claim C6 evaluated on the code: the rooms fetcher issues the same
unscoped GET /rooms request whichever home is current, so its result does
not depend on the current home identifier, and with home 2 current it
holds a room belonging to home 1. -/
theorem roomsFetch_not_scoped :
    (∀ (s : FetcherState (List Room)) (a b : Nat),
        fetchRooms (Except.ok serverRooms) (some a) s =
          fetchRooms (Except.ok serverRooms) (some b) s) ∧
    ((fetchRooms (Except.ok serverRooms) (some 2) emptyRoomsFetcher).1.data.any
        (fun room => room.home_id ≠ 2) = true) := by
  exact ⟨fun s a b => rfl, by decide⟩

/-- Concrete user returned by the profile fetch in session scenarios. -/
def demoUser : User :=
  { id := 1, email := "a@b.com", username := "a", full_name := none }

/-- Concrete credentials for session scenarios. -/
def demoCreds : LoginCredentials := { email := "a@b.com", password := "x" }

/-- Session trace for the C9 counterexample: a login whose credential
exchange succeeds but returns the empty string as access token, followed
by a reload. -/
def c9Trace : List SessionOp :=
  [SessionOp.login (some ("")) (some demoUser) demoCreds,
   SessionOp.reload]

/-- Claim C9 counterexample: after a login that stores an empty-string
access token and a reload, storage still holds the token and the cached
user, but the startup restoration reads the empty token as absent and
restores no user, so the stored token is non-null while the in-memory user
is null - the invariant as claimed is violated. -/
theorem emptyToken_splits_session :
    (runSession initSession c9Trace).storToken = some ("") ∧
    (runSession initSession c9Trace).storUser = some (StoredUser.valid demoUser) ∧
    (runSession initSession c9Trace).memUser = none ∧
    ¬ sessionInvariant (runSession initSession c9Trace) := by
  decide

/-- A session operation is benign when any access token its credential
exchange returns is non-empty (JavaScript truthiness makes the startup
restoration read an empty stored token as absent). -/
def opTokenOk (op : SessionOp) : Bool :=
  match op with
  | SessionOp.login (some t) _ _ => t ≠ ""
  | SessionOp.register _ (some t) _ _ => t ≠ ""
  | _ => true

/-- Strengthened induction invariant for the session store: the claimed
invariant, plus the facts that any stored token is a non-empty string and
any stored user blob is a written (hence parseable) record. -/
def sessionGood (s : SessionState) : Prop :=
  sessionInvariant s ∧
    (s.storToken = none ∨ ∃ t, s.storToken = some t ∧ t ≠ "") ∧
    (s.storUser = none ∨ ∃ u, s.storUser = some (StoredUser.valid u))

/-- One benign operation preserves the strengthened session invariant. -/
theorem sessionGood_step (s : SessionState) (op : SessionOp)
    (hg : sessionGood s) (hop : opTokenOk op = true) :
    sessionGood (applySessionOp s op) := by
  obtain ⟨⟨hts, htm⟩, htok, huser⟩ := hg
  cases op with
  | login exchange profile creds =>
    cases exchange with
    | none => exact ⟨⟨hts, htm⟩, htok, huser⟩
    | some t =>
      simp [opTokenOk] at hop
      cases profile with
      | some u =>
        refine ⟨⟨by simp [applySessionOp, loginStep], by simp [applySessionOp, loginStep]⟩,
          Or.inr ⟨t, by simp [applySessionOp, loginStep], hop⟩, ?_⟩
        exact Or.inr ⟨u, by simp [applySessionOp, loginStep]⟩
      | none =>
        refine ⟨⟨by simp [applySessionOp, loginStep], by simp [applySessionOp, loginStep]⟩,
          Or.inr ⟨t, by simp [applySessionOp, loginStep], hop⟩, ?_⟩
        exact Or.inr ⟨mkMockUser creds.email, by simp [applySessionOp, loginStep]⟩
  | register created exchange profile data =>
    cases created with
    | false => exact ⟨⟨hts, htm⟩, htok, huser⟩
    | true =>
      cases exchange with
      | none => exact ⟨⟨hts, htm⟩, htok, huser⟩
      | some t =>
        simp [opTokenOk] at hop
        cases profile with
        | some u =>
          refine ⟨⟨by simp [applySessionOp, registerStep, loginStep],
            by simp [applySessionOp, registerStep, loginStep]⟩,
            Or.inr ⟨t, by simp [applySessionOp, registerStep, loginStep], hop⟩, ?_⟩
          exact Or.inr ⟨u, by simp [applySessionOp, registerStep, loginStep]⟩
        | none =>
          refine ⟨⟨by simp [applySessionOp, registerStep, loginStep],
            by simp [applySessionOp, registerStep, loginStep]⟩,
            Or.inr ⟨t, by simp [applySessionOp, registerStep, loginStep], hop⟩, ?_⟩
          exact Or.inr ⟨mkMockUser data.email,
            by simp [applySessionOp, registerStep, loginStep]⟩
  | logout =>
    exact ⟨⟨by simp [applySessionOp, logoutStep], by simp [applySessionOp, logoutStep]⟩,
      Or.inl (by simp [applySessionOp, logoutStep]),
      Or.inl (by simp [applySessionOp, logoutStep])⟩
  | reload =>
    cases htok with
    | inl hnone =>
      have hus : s.storUser = none := hts.mp hnone
      refine ⟨⟨by simp [applySessionOp, restoreSession, hnone, hus], ?_⟩, ?_, ?_⟩
      · simp [applySessionOp, restoreSession, hnone, hus]
      · exact Or.inl (by simp [applySessionOp, restoreSession, hnone, hus])
      · exact Or.inl (by simp [applySessionOp, restoreSession, hnone, hus])
    | inr hsome =>
      obtain ⟨t, hteq, htne⟩ := hsome
      cases huser with
      | inl hunone =>
        exact absurd (hts.mpr hunone) (by simp [hteq])
      | inr husome =>
        obtain ⟨u, hueq⟩ := husome
        refine ⟨⟨?_, ?_⟩, ?_, ?_⟩
        · simp [applySessionOp, restoreSession, hteq, hueq, storedTruthy, htne, parseStored]
        · simp [applySessionOp, restoreSession, hteq, hueq, storedTruthy, htne, parseStored]
        · exact Or.inr ⟨t,
            by simp [applySessionOp, restoreSession, hteq, hueq, storedTruthy, htne, parseStored],
            htne⟩
        · exact Or.inr ⟨u,
            by simp [applySessionOp, restoreSession, hteq, hueq, storedTruthy, htne, parseStored]⟩

/-- Benign operation sequences preserve the strengthened invariant. -/
theorem runSession_good (ops : List SessionOp) :
    ∀ s, sessionGood s → (∀ op ∈ ops, opTokenOk op = true) →
      sessionGood (runSession s ops) := by
  induction ops with
  | nil => intro s hs _; exact hs
  | cons op rest ih =>
    intro s hs hops
    have hop : opTokenOk op = true := hops op (List.mem_cons_self op rest)
    have hrest : ∀ o ∈ rest, opTokenOk o = true :=
      fun o ho => hops o (List.mem_cons_of_mem op ho)
    exact ih (applySessionOp s op) (sessionGood_step s op hs hop) hrest

/-- Claim C9 amended: over every operation sequence from the fresh session
in which each successful credential exchange returns a non-empty access
token, the stored token is non-null iff the stored user is non-null, and
likewise for the in-memory user - token and user are never split. -/
theorem sessionInvariant_preserved (ops : List SessionOp)
    (hops : ∀ op ∈ ops, opTokenOk op = true) :
    sessionInvariant (runSession initSession ops) :=
  (runSession_good ops initSession
    ⟨⟨by simp [initSession], by simp [initSession]⟩,
      Or.inl (by simp [initSession]), Or.inl (by simp [initSession])⟩ hops).1

/-- Claim C9 amended witness: a concrete benign sequence - a login with
token T1 and a fetched profile, a reload, and a logout - satisfies the
invariant at its end. -/
theorem sessionInvariant_preserved_witness :
    sessionInvariant (runSession initSession
      [SessionOp.login (some ("T1")) (some demoUser) demoCreds,
       SessionOp.reload, SessionOp.logout]) :=
  sessionInvariant_preserved
    [SessionOp.login (some ("T1")) (some demoUser) demoCreds,
     SessionOp.reload, SessionOp.logout]
    (by decide)
